import Mathlib

/-! # Auth controllers: a verification development

Shallow embedding of `src/controllers/auth.controllers.js`.

The handlers are thin orchestration over external collaborators (the `User`
model, `jsonwebtoken`, `bcrypt`, `cloudinary`, `fs`) and the Express response
object.  The collaborators are taken as parameters (`Env`): each one is a
function of an abstract world `W` that either returns a value or raises, and may
change the world.  A handler is a computation over a run state that carries the
world and the ordered log of every collaborator call and every call made on the
response object.  A JavaScript `throw` (a rejected promise) is the `error`
outcome of the computation.

Modelling choices, all on the side of the callers and libraries that are not in
the source file:
* `req.body` and `req.cookies` are objects (the body and cookie middleware ran);
  `req.file` is absent or an object with a `path`;
* the response object is the one of Express: `status` stores the code; `json`
  sends the body; `json`, `cookie` and `clearCookie` set a header, so they throw
  `ERR_HTTP_HEADERS_SENT` once a body has gone out; every call is logged, also
  the one that throws;
* `User.findOne` resolves to a document or to `null`; `cloudinary` resolves to a
  response object; `jwt.verify` returns any value, and reading `.email` from
  `undefined` or `null` throws as in JavaScript.
-/

namespace AuthControllers

/-! ## JavaScript values -/

/-- JavaScript values as they reach the handlers (parsed JSON bodies, cookies,
document fields, thrown errors).  Numbers are abstracted to integers: the
handlers only ever test them for truthiness. -/
inductive JSVal where
  | undefined
  | null
  | bool (b : Bool)
  | num (n : Int)
  | str (s : String)
  | obj (fields : List (String × JSVal))

/-- JavaScript truthiness, the test behind `!x`, `if (x)` and `a || b`. -/
def JSVal.truthy : JSVal → Bool
  | .undefined => false
  | .null => false
  | .bool b => b
  | .num n => n != 0
  | .str s => s != ""
  | .obj _ => true

/-- Property read on an object literal: the value, or `undefined`. -/
def getField (fields : List (String × JSVal)) (key : String) : JSVal :=
  match fields.lookup key with
  | some v => v
  | none => JSVal.undefined

/-- JavaScript `a || b`. -/
def JSVal.or (a b : JSVal) : JSVal :=
  if a.truthy then a else b

/-- The error raised by a property read on `undefined` or `null`. -/
def typeError : JSVal :=
  JSVal.obj [("name", JSVal.str "TypeError")]

/-! ## Requests, documents, events -/

/-- The `req.file` object set by the upload middleware. -/
structure File where
  path : JSVal

/-- The parts of an Express request the handlers read.  `body` and `cookies` are
the objects produced by the body and cookie middleware. -/
structure Request where
  body : List (String × JSVal)
  cookies : List (String × JSVal)
  file : Option File

/-- A `User` document as returned by `User.findOne` and `User.create`. -/
structure UserDoc where
  userName : JSVal
  email : JSVal
  password : JSVal
  id : JSVal

/-- Everything a handler does that is visible outside it, in order. -/
inductive Event where
  /-- Call `User.findOne(query)` -/
  | findOne (query : JSVal)
  /-- Call `User.create(record)` -/
  | create (record : JSVal)
  /-- Call `bcrypt.compare(plain, hash)` -/
  | compare (plain hash : JSVal)
  /-- Call `jwt.sign(payload, secret, options)` with `options.expiresIn` -/
  | sign (payload secret : JSVal) (expiresIn : String)
  /-- Call `jwt.verify(token, secret)` -/
  | verify (token secret : JSVal)
  /-- Call `cloudinary.uploader.upload(path, options)` with `options.resource_type` -/
  | upload (path : JSVal) (resourceType : String)
  /-- Call `fs.unlinkSync(path)` -/
  | unlinkSync (path : JSVal)
  /-- The preceding collaborator call raised this error. -/
  | raised (error : JSVal)
  /-- Call `console.log(value)` -/
  | consoleLog (value : JSVal)
  /-- Call `res.status(code)` -/
  | status (code : Nat)
  /-- Call `res.cookie(name, value, options)` with `options.httpOnly`, `options.secure` -/
  | cookie (name : String) (value : JSVal) (httpOnly secure : Bool)
  /-- Call `res.clearCookie(name)` -/
  | clearCookie (name : String)
  /-- Call `res.json(body)` -/
  | json (body : JSVal)

/-- Is the event a `User.findOne`? -/
def Event.isFindOne : Event → Bool
  | Event.findOne _ => true
  | _ => false

/-- Is the event a `User.create`? -/
def Event.isCreate : Event → Bool
  | Event.create _ => true
  | _ => false

/-- Is the event a `jwt.sign`? -/
def Event.isSign : Event → Bool
  | Event.sign _ _ _ => true
  | _ => false

/-- Is the event a `jwt.verify`? -/
def Event.isVerify : Event → Bool
  | Event.verify _ _ => true
  | _ => false

/-- Is the event a `cloudinary.uploader.upload`? -/
def Event.isUpload : Event → Bool
  | Event.upload _ _ => true
  | _ => false

/-- Is the event an `fs.unlinkSync`? -/
def Event.isUnlink : Event → Bool
  | Event.unlinkSync _ => true
  | _ => false

/-- Is the event a `res.cookie`? -/
def Event.isCookie : Event → Bool
  | Event.cookie _ _ _ _ => true
  | _ => false

/-- Is the event a `res.json`? -/
def Event.isJson : Event → Bool
  | Event.json _ => true
  | _ => false

/-- Is the event a collaborator raising? -/
def Event.isRaised : Event → Bool
  | Event.raised _ => true
  | _ => false

/-! ## Collaborators -/

/-- The external collaborators and the process environment.  Each collaborator
reads the world, returns a value or raises, and yields the next world. -/
structure Env (W : Type) where
  /-- Value of `process.env.ACCESS_JWT_SECRET` -/
  ACCESS_JWT_SECRET : JSVal
  /-- Value of `process.env.REFRESH_JWT_SECRET` -/
  REFRESH_JWT_SECRET : JSVal
  /-- Call `User.findOne(query)`: a document, or `null` (here `none`) -/
  findOne : JSVal → W → Except JSVal (Option UserDoc) × W
  /-- Call `User.create(record)`: the stored document -/
  create : JSVal → W → Except JSVal UserDoc × W
  /-- Call `bcrypt.compare(plain, hash)` -/
  compare : JSVal → JSVal → W → Except JSVal Bool × W
  /-- Call `jwt.sign(payload, secret, options)`: the token string -/
  sign : JSVal → JSVal → String → W → Except JSVal String × W
  /-- Call `jwt.verify(token, secret)`: the decoded payload -/
  verify : JSVal → JSVal → W → Except JSVal JSVal × W
  /-- Call `cloudinary.uploader.upload(path, options)`: the response object -/
  upload : JSVal → String → W → Except JSVal (List (String × JSVal)) × W
  /-- Call `fs.unlinkSync(path)` -/
  unlinkSync : JSVal → W → Except JSVal Unit × W

/-! ## Handler computations -/

/-- The run state: the world and the log of events so far. -/
structure Run (W : Type) where
  world : W
  log : List Event

/-- A handler computation: from a run state to an outcome (a value, or a thrown
error) and the run state reached. -/
def Act (W α : Type) : Type :=
  Run W → Except JSVal α × Run W

/-- Sequencing: a thrown error skips the rest. -/
def Act.bind {W α β : Type} (m : Act W α) (f : α → Act W β) : Act W β :=
  fun s =>
    match m s with
    | (Except.ok a, s1) => f a s1
    | (Except.error e, s1) => (Except.error e, s1)

/-- Return a value without any effect. -/
def Act.pure {W α : Type} (a : α) : Act W α :=
  fun s => (Except.ok a, s)

instance {W : Type} : Monad (Act W) where
  pure := Act.pure
  bind := Act.bind

/-- JavaScript `throw`. -/
def throwJS {W α : Type} (e : JSVal) : Act W α :=
  fun s => (Except.error e, s)

/-- JavaScript `try { body } catch (error) { handler }`. -/
def tryCatch {W α : Type} (body : Act W α) (handler : JSVal → Act W α) : Act W α :=
  fun s =>
    match body s with
    | (Except.ok a, s1) => (Except.ok a, s1)
    | (Except.error e, s1) => handler e s1

/-- Record an event that cannot fail (`res.status`, which only stores the code,
and `console.log`). -/
def emit {W : Type} (ev : Event) : Act W Unit :=
  fun s => (Except.ok (), { s with log := s.log ++ [ev] })

/-- Call a collaborator: the call is logged, and when it raises, so is the error,
which is then thrown. -/
def call {W α : Type} (ev : Event) (f : W → Except JSVal α × W) : Act W α :=
  fun s =>
    match f s.world with
    | (Except.ok a, w1) => (Except.ok a, { world := w1, log := s.log ++ [ev] })
    | (Except.error e, w1) =>
        (Except.error e, { world := w1, log := s.log ++ [ev, Event.raised e] })

/-- Property read `v.key`: throws on `undefined` and `null`, gives `undefined` on
other primitives. -/
def member {W : Type} (v : JSVal) (key : String) : Act W JSVal :=
  match v with
  | JSVal.obj fields => Act.pure (getField fields key)
  | JSVal.undefined => throwJS typeError
  | JSVal.null => throwJS typeError
  | _ => Act.pure JSVal.undefined

/-- Call `res.status(code)` -/
def resStatus {W : Type} (code : Nat) : Act W Unit :=
  emit (Event.status code)

/-- The error Express raises when a header is set after the response went out
(`ERR_HTTP_HEADERS_SENT`). -/
def headersSentError : JSVal :=
  JSVal.obj [("code", JSVal.str "ERR_HTTP_HEADERS_SENT")]

/-- Has the response gone out?  The first `res.json` sends it. -/
def headersSent (log : List Event) : Bool :=
  log.any Event.isJson

/-- A call on the response object that sets a header (`json`, `cookie`,
`clearCookie`): the call is logged, and it throws when the response has already
gone out. -/
def resCall {W : Type} (ev : Event) : Act W Unit :=
  fun s =>
    if headersSent s.log then
      (Except.error headersSentError, { s with log := s.log ++ [ev] })
    else
      (Except.ok (), { s with log := s.log ++ [ev] })

/-- Call `res.json(body)` -/
def resJson {W : Type} (body : JSVal) : Act W Unit :=
  resCall (Event.json body)

/-- Call `res.cookie(name, value, options)` -/
def resCookie {W : Type} (name : String) (value : JSVal) (httpOnly secure : Bool) :
    Act W Unit :=
  resCall (Event.cookie name value httpOnly secure)

/-- Call `res.clearCookie(name)` -/
def resClearCookie {W : Type} (name : String) : Act W Unit :=
  resCall (Event.clearCookie name)

/-- The object literal `{ message: text }`. -/
def messageBody (text : String) : JSVal :=
  JSVal.obj [("message", JSVal.str text)]

/-! ## The controllers -/

/-- Source lines 16-26. -/
def uploadImageToCloudinary {W : Type} (env : Env W) (localPath : JSVal) : Act W JSVal :=
  tryCatch
    (do
      let result ← call (Event.upload localPath "auto") (env.upload localPath "auto")
      call (Event.unlinkSync localPath) (env.unlinkSync localPath)
      pure (getField result "url"))
    (fun _ => do
      call (Event.unlinkSync localPath) (env.unlinkSync localPath)
      pure JSVal.undefined)

/-- Source lines 29-49. -/
def uploadImage {W : Type} (env : Env W) (req : Request) : Act W Unit :=
  match req.file with
  | none => do
      resStatus 400
      resJson (messageBody "no image file uploaded")
  | some file =>
      tryCatch
        (do
          let uploadResult ← uploadImageToCloudinary env file.path
          if !uploadResult.truthy then do
            resStatus 500
            resJson (messageBody "error occured while uploading image")
          else
            resJson (JSVal.obj [("message", JSVal.str "image uploaded successfully"),
                                ("url", uploadResult)]))
        (fun error => do
          emit (Event.consoleLog error)
          resStatus 500
          resJson (messageBody "error occured while uploading image"))

/-- The object literal `{ email: user.email }` signed into both tokens. -/
def emailClaim (email : JSVal) : JSVal :=
  JSVal.obj [("email", email)]

/-- Source lines 53-57. -/
def generateAccessToken {W : Type} (env : Env W) (user : UserDoc) : Act W String :=
  call (Event.sign (emailClaim user.email) env.ACCESS_JWT_SECRET "6h")
    (env.sign (emailClaim user.email) env.ACCESS_JWT_SECRET "6h")

/-- Source lines 58-62. -/
def generateRefreshToken {W : Type} (env : Env W) (user : UserDoc) : Act W String :=
  call (Event.sign (emailClaim user.email) env.REFRESH_JWT_SECRET "7d")
    (env.sign (emailClaim user.email) env.REFRESH_JWT_SECRET "7d")

/-- The object literal `{ userName, email, password }` passed to `User.create`. -/
def newUserRecord (userName email password : JSVal) : JSVal :=
  JSVal.obj [("userName", userName), ("email", email), ("password", password)]

/-- The body of the catch blocks of `registerUser` and `loginUser`. -/
def serverErrorBody (error : JSVal) : JSVal :=
  JSVal.obj [("message", JSVal.str "server error"), ("error", error)]

/-- Source lines 66-106. -/
def registerUser {W : Type} (env : Env W) (req : Request) : Act W Unit :=
  let userName := getField req.body "userName"
  let email := getField req.body "email"
  let password := getField req.body "password"
  if !userName.truthy then do
    resStatus 400
    resJson (messageBody "username required")
  else if !email.truthy then do
    resStatus 400
    resJson (messageBody "email required")
  else if !password.truthy then do
    resStatus 400
    resJson (messageBody "password required")
  else
    tryCatch
      (do
        let user ← call (Event.findOne (emailClaim email)) (env.findOne (emailClaim email))
        match user with
        | some _ => do
            resStatus 401
            resJson (messageBody "user already exists")
        | none => do
            let createUser ← call (Event.create (newUserRecord userName email password))
              (env.create (newUserRecord userName email password))
            let accessToken ← generateAccessToken env createUser
            let refreshToken ← generateRefreshToken env createUser
            resCookie "refreshToken" (JSVal.str refreshToken) true false
            resJson (JSVal.obj [
              ("message", JSVal.str "user registered and logged in successfully"),
              ("accessToken", JSVal.str accessToken),
              ("refreshToken", JSVal.str refreshToken),
              ("data", JSVal.obj [("userName", createUser.userName),
                                  ("email", createUser.email)])]))
      (fun error => do
        resStatus 500
        resJson (serverErrorBody error))

/-- Source lines 108-146. -/
def loginUser {W : Type} (env : Env W) (req : Request) : Act W Unit :=
  let email := getField req.body "email"
  let password := getField req.body "password"
  if !email.truthy then do
    resStatus 400
    resJson (messageBody "email required")
  else if !password.truthy then do
    resStatus 400
    resJson (messageBody "password required")
  else
    tryCatch
      (do
        let found ← call (Event.findOne (emailClaim email)) (env.findOne (emailClaim email))
        match found with
        | none => do
            resStatus 404
            resJson (messageBody "no user found")
        | some user => do
            let isPasswordValid ← call (Event.compare password user.password)
              (env.compare password user.password)
            if !isPasswordValid then do
              resStatus 400
              resJson (messageBody "incorrect password")
            else do
              let accessToken ← generateAccessToken env user
              let refreshToken ← generateRefreshToken env user
              resCookie "refreshToken" (JSVal.str refreshToken) true false
              resJson (JSVal.obj [
                ("message", JSVal.str "user logged in successfully"),
                ("accessToken", JSVal.str accessToken),
                ("refreshToken", JSVal.str refreshToken),
                ("data", JSVal.obj [("userName", user.userName),
                                    ("email", user.email),
                                    ("id", user.id)])]))
      (fun error => do
        resStatus 500
        resJson (serverErrorBody error))

/-- Source lines 151-154. -/
def logoutUser {W : Type} (_env : Env W) (_req : Request) : Act W Unit := do
  resClearCookie "refreshToken"
  resJson (messageBody "user logout successfully")

/-- Source lines 156-166. -/
def refreshToken {W : Type} (env : Env W) (req : Request) : Act W Unit :=
  let token := (getField req.cookies "refreshToken").or (getField req.body "refreshToken")
  if !token.truthy then do
    resStatus 401
    resJson (messageBody "no refresh token found!")
  else do
    let decodedToken ← call (Event.verify token env.REFRESH_JWT_SECRET)
      (env.verify token env.REFRESH_JWT_SECRET)
    let decodedEmail ← member decodedToken "email"
    let found ← call (Event.findOne (emailClaim decodedEmail))
      (env.findOne (emailClaim decodedEmail))
    match found with
    | none => do
        resStatus 404
        resJson (messageBody "invalid token")
    | some user => do
        let generateToken ← generateAccessToken env user
        resJson (JSVal.obj [("message", JSVal.str "access token generated"),
                            ("accesstoken", JSVal.str generateToken)])
        resJson (JSVal.obj [("decodedToken", decodedToken)])

/-! ## Observing a run -/

/-- Run a handler from a world with an empty log. -/
def Act.exec {W α : Type} (m : Act W α) (w : W) : Except JSVal α × Run W :=
  m { world := w, log := [] }

/-- The response writes: every `res.json` call, paired with the status code that
`res.status` had set when the call was made. -/
def responsesFrom (code : Nat) : List Event → List (Nat × JSVal)
  | [] => []
  | Event.status c :: rest => responsesFrom c rest
  | Event.json body :: rest => (code, body) :: responsesFrom code rest
  | _ :: rest => responsesFrom code rest

/-- The response writes on a fresh response object (status code 200). -/
def responses (log : List Event) : List (Nat × JSVal) :=
  responsesFrom 200 log

/-- The bodies that reach the client: only the first write goes out, a later
one finds the response already sent. -/
def delivered (log : List Event) : List (Nat × JSVal) :=
  (responses log).take 1

/-- Does a response body carry a `message` field? -/
def hasMessage : JSVal → Bool
  | JSVal.obj fields => (fields.lookup "message").isSome
  | _ => false

/-! ## A concrete environment

An in-memory store keyed by the email string, a hasher that stores the plain
text, a signer that tags the email with the secret and the lifetime, and a file
system in which every deletion succeeds.  Used to instantiate the theorems. -/

/-- The string inside a value, if it is one. -/
def JSVal.asString : JSVal → String
  | JSVal.str s => s
  | _ => ""

/-- Lookup by `query.email` among the stored documents. -/
def memFindOne (query : JSVal) (docs : List UserDoc) : Except JSVal (Option UserDoc) × List UserDoc :=
  match query with
  | JSVal.obj [(_, JSVal.str e)] => (Except.ok (docs.find? (fun d => d.email.asString == e)), docs)
  | _ => (Except.ok none, docs)

/-- Store the record as a new document. -/
def memCreate (record : JSVal) (docs : List UserDoc) : Except JSVal UserDoc × List UserDoc :=
  match record with
  | JSVal.obj fields =>
      let doc : UserDoc :=
        { userName := getField fields "userName", email := getField fields "email",
          password := getField fields "password", id := JSVal.num docs.length }
      (Except.ok doc, docs ++ [doc])
  | _ => (Except.error (JSVal.str "validation failed"), docs)

/-- A token is the lifetime, the secret and the email, joined. -/
def memSign (payload secret : JSVal) (expiresIn : String) (docs : List UserDoc) :
    Except JSVal String × List UserDoc :=
  match payload with
  | JSVal.obj fields =>
      (Except.ok (expiresIn ++ "." ++ secret.asString ++ "." ++ (getField fields "email").asString),
        docs)
  | _ => (Except.error (JSVal.str "bad payload"), docs)

/-- Only the one refresh token of `a@x.com` verifies. -/
def memVerify (token _secret : JSVal) (docs : List UserDoc) : Except JSVal JSVal × List UserDoc :=
  match token with
  | JSVal.str "7d.r.a@x.com" => (Except.ok (JSVal.obj [("email", JSVal.str "a@x.com")]), docs)
  | _ => (Except.error (JSVal.str "jwt malformed"), docs)

/-- Uploading `/tmp/cat.png` succeeds, `/tmp/empty.png` yields no url, anything
else is rejected. -/
def memUpload (path : JSVal) (_resourceType : String) (docs : List UserDoc) :
    Except JSVal (List (String × JSVal)) × List UserDoc :=
  match path with
  | JSVal.str "/tmp/cat.png" => (Except.ok [("url", JSVal.str "http://cdn/cat.png")], docs)
  | JSVal.str "/tmp/empty.png" => (Except.ok [], docs)
  | _ => (Except.error (JSVal.str "upload failed"), docs)

/-- The concrete environment. -/
def memEnv : Env (List UserDoc) where
  ACCESS_JWT_SECRET := JSVal.str "a"
  REFRESH_JWT_SECRET := JSVal.str "r"
  findOne := memFindOne
  create := memCreate
  compare := fun plain hash docs => (Except.ok (plain.asString == hash.asString), docs)
  sign := memSign
  verify := memVerify
  upload := memUpload
  unlinkSync := fun _ docs => (Except.ok (), docs)

/-- The document of alice. -/
def aliceDoc : UserDoc :=
  { userName := JSVal.str "alice", email := JSVal.str "a@x.com",
    password := JSVal.str "secret1", id := JSVal.num 0 }

/-- The registration request of the concrete scenario. -/
def aliceRegister : Request :=
  { body := [("userName", JSVal.str "alice"), ("email", JSVal.str "a@x.com"),
             ("password", JSVal.str "secret1")],
    cookies := [], file := none }

/-- A login request with the given email and password. -/
def loginRequest (email password : String) : Request :=
  { body := [("email", JSVal.str email), ("password", JSVal.str password)],
    cookies := [], file := none }

/-- A refresh request carrying the token in the cookie. -/
def cookieRefresh (token : String) : Request :=
  { body := [], cookies := [("refreshToken", JSVal.str token)], file := none }

/-- A request with nothing in it. -/
def emptyRequest : Request :=
  { body := [], cookies := [], file := none }

/-- An upload request whose temporary file is at the given path. -/
def uploadRequest (path : String) : Request :=
  { body := [], cookies := [], file := some { path := JSVal.str path } }

/-- The concrete environment with the store unreachable: both store
operations raise. -/
def downEnv : Env (List UserDoc) :=
  { memEnv with
    findOne := fun _ docs => (Except.error (JSVal.str "store unavailable"), docs)
    create := fun _ docs => (Except.error (JSVal.str "store unavailable"), docs) }

/-- Deletion on a disk given as the list of paths present: the path is removed,
and deleting a path that is not there fails. -/
def diskUnlink (path : JSVal) (files : List String) : Except JSVal Unit × List String :=
  match path with
  | JSVal.str p =>
      if files.contains p then (Except.ok (), files.erase p)
      else (Except.error (JSVal.str "ENOENT"), files)
  | _ => (Except.error (JSVal.str "ERR_INVALID_ARG_TYPE"), files)

/-- The media service over that disk: `/tmp/cat.png` is hosted, `/tmp/empty.png`
comes back without a url, anything else is rejected.  The disk is left alone. -/
def diskUpload (path : JSVal) (_resourceType : String) (files : List String) :
    Except JSVal (List (String × JSVal)) × List String :=
  match path with
  | JSVal.str "/tmp/cat.png" => (Except.ok [("url", JSVal.str "http://cdn/cat.png")], files)
  | JSVal.str "/tmp/empty.png" => (Except.ok [], files)
  | _ => (Except.error (JSVal.str "upload failed"), files)

/-- An environment whose world is the disk; the store and the token library are
not used by the upload handler. -/
def diskEnv : Env (List String) where
  ACCESS_JWT_SECRET := JSVal.str "a"
  REFRESH_JWT_SECRET := JSVal.str "r"
  findOne := fun _ files => (Except.ok none, files)
  create := fun _ files => (Except.error (JSVal.str "store unavailable"), files)
  compare := fun _ _ files => (Except.ok false, files)
  sign := fun _ _ _ files => (Except.error (JSVal.str "no secret"), files)
  verify := fun _ _ files => (Except.error (JSVal.str "jwt malformed"), files)
  upload := diskUpload
  unlinkSync := diskUnlink

/-! ## Evaluation lemmas -/

/-- The three validation exits of `registerUser`, and what is left when all
three fields are truthy. -/
theorem registerUser_validation {W : Type} (env : Env W) (req : Request) (w : W) :
    ((getField req.body "userName").truthy = false →
        (registerUser env req).exec w = (Except.ok (),
          { world := w, log := [Event.status 400, Event.json (messageBody "username required")] }))
    ∧ ((getField req.body "userName").truthy = true →
        (getField req.body "email").truthy = false →
        (registerUser env req).exec w = (Except.ok (),
          { world := w, log := [Event.status 400, Event.json (messageBody "email required")] }))
    ∧ ((getField req.body "userName").truthy = true →
        (getField req.body "email").truthy = true →
        (getField req.body "password").truthy = false →
        (registerUser env req).exec w = (Except.ok (),
          { world := w, log := [Event.status 400, Event.json (messageBody "password required")] })) := by
  refine ⟨fun hu => ?_, fun hu he => ?_, fun hu he hp => ?_⟩
  · simp [Act.exec, registerUser, hu, bind, Act.bind, resStatus, resJson, resCookie, resClearCookie, resCall, headersSent, Event.isJson, emit]
  · simp [Act.exec, registerUser, hu, he, bind, Act.bind, resStatus, resJson, resCookie, resClearCookie, resCall, headersSent, Event.isJson, emit]
  · simp [Act.exec, registerUser, hu, he, hp, bind, Act.bind, resStatus, resJson, resCookie, resClearCookie, resCall, headersSent, Event.isJson, emit]

/-- The handler `registerUser` always completes with exactly one response, and when a
collaborator raised, that response is a 500 with a message. -/
theorem registerUser_total {W : Type} (env : Env W) (req : Request) (w : W) :
    ((registerUser env req).exec w).1 = Except.ok ()
    ∧ (responses ((registerUser env req).exec w).2.log).length = 1
    ∧ (((registerUser env req).exec w).2.log.any Event.isRaised = true →
        ∃ body, responses ((registerUser env req).exec w).2.log = [(500, body)]
          ∧ hasMessage body = true) := by
  obtain ⟨h1, h2, h3⟩ := registerUser_validation env req w
  cases hu : (getField req.body "userName").truthy with
  | false => rw [h1 hu]; simp [responses, responsesFrom, Event.isRaised]
  | true =>
  cases he : (getField req.body "email").truthy with
  | false => rw [h2 hu he]; simp [responses, responsesFrom, Event.isRaised]
  | true =>
  cases hp : (getField req.body "password").truthy with
  | false => rw [h3 hu he hp]; simp [responses, responsesFrom, Event.isRaised]
  | true =>
  simp only [Act.exec, registerUser, generateAccessToken, generateRefreshToken]
  simp only [hu, he, hp]
  rcases hfind : env.findOne (emailClaim (getField req.body "email")) w
    with ⟨(e | (_ | u)), w1⟩ <;>
    simp [hfind, tryCatch, call, bind, Act.bind, resStatus, resJson, resCookie, resClearCookie, resCall, headersSent, Event.isJson, emit, responses,
      responsesFrom, Event.isRaised, messageBody, hasMessage, serverErrorBody]
  rcases hcreate : env.create (newUserRecord (getField req.body "userName")
      (getField req.body "email") (getField req.body "password")) w1 with ⟨(e | c), w2⟩ <;>
    simp [hcreate, tryCatch, call, bind, Act.bind, resStatus, resJson, resCookie, resClearCookie, resCall, headersSent, Event.isJson, emit, responses,
      responsesFrom, Event.isRaised, messageBody, hasMessage, serverErrorBody]
  rcases haccess : env.sign (emailClaim c.email) env.ACCESS_JWT_SECRET "6h" w2
    with ⟨(e | a), w3⟩ <;>
    simp [haccess, tryCatch, call, bind, Act.bind, resStatus, resJson, resCookie, resClearCookie, resCall, headersSent, Event.isJson, emit, responses,
      responsesFrom, Event.isRaised, messageBody, hasMessage, serverErrorBody]
  rcases hrefresh : env.sign (emailClaim c.email) env.REFRESH_JWT_SECRET "7d" w3
    with ⟨(e | r), w4⟩ <;>
    simp [hrefresh, tryCatch, call, bind, Act.bind, resStatus, resJson, resCookie, resClearCookie, resCall, headersSent, Event.isJson, emit, responses,
      responsesFrom, Event.isRaised, messageBody, hasMessage, serverErrorBody]

/-- The handler `loginUser` always completes with exactly one response, and when a
collaborator raised, that response is a 500 with a message. -/
theorem loginUser_total {W : Type} (env : Env W) (req : Request) (w : W) :
    ((loginUser env req).exec w).1 = Except.ok ()
    ∧ (responses ((loginUser env req).exec w).2.log).length = 1
    ∧ (((loginUser env req).exec w).2.log.any Event.isRaised = true →
        ∃ body, responses ((loginUser env req).exec w).2.log = [(500, body)]
          ∧ hasMessage body = true) := by
  simp only [Act.exec, loginUser, generateAccessToken, generateRefreshToken]
  cases he : (getField req.body "email").truthy with
  | false =>
    simp [bind, Act.bind, resStatus, resJson, resCookie, resClearCookie, resCall, headersSent, Event.isJson, emit, responses, responsesFrom, Event.isRaised]
  | true =>
  cases hp : (getField req.body "password").truthy with
  | false =>
    simp [bind, Act.bind, resStatus, resJson, resCookie, resClearCookie, resCall, headersSent, Event.isJson, emit, responses, responsesFrom, Event.isRaised]
  | true =>
  rcases hfind : env.findOne (emailClaim (getField req.body "email")) w
    with ⟨(e | (_ | u)), w1⟩ <;>
    simp [hfind, tryCatch, call, bind, Act.bind, resStatus, resJson, resCookie, resClearCookie, resCall, headersSent, Event.isJson, emit, responses,
      responsesFrom, Event.isRaised, messageBody, hasMessage, serverErrorBody]
  rcases hcmp : env.compare (getField req.body "password") u.password w1
    with ⟨(e | (_ | _)), w2⟩ <;>
    simp [hcmp, tryCatch, call, bind, Act.bind, resStatus, resJson, resCookie, resClearCookie, resCall, headersSent, Event.isJson, emit, responses,
      responsesFrom, Event.isRaised, messageBody, hasMessage, serverErrorBody]
  rcases haccess : env.sign (emailClaim u.email) env.ACCESS_JWT_SECRET "6h" w2
    with ⟨(e | a), w3⟩ <;>
    simp [haccess, tryCatch, call, bind, Act.bind, resStatus, resJson, resCookie, resClearCookie, resCall, headersSent, Event.isJson, emit, responses,
      responsesFrom, Event.isRaised, messageBody, hasMessage, serverErrorBody]
  rcases hrefresh : env.sign (emailClaim u.email) env.REFRESH_JWT_SECRET "7d" w3
    with ⟨(e | r), w4⟩ <;>
    simp [hrefresh, tryCatch, call, bind, Act.bind, resStatus, resJson, resCookie, resClearCookie, resCall, headersSent, Event.isJson, emit, responses,
      responsesFrom, Event.isRaised, messageBody, hasMessage, serverErrorBody]

/-- The handler `uploadImage` always completes with exactly one response, and when a
collaborator raised, that response is a 500 with a message. -/
theorem uploadImage_total {W : Type} (env : Env W) (req : Request) (w : W) :
    ((uploadImage env req).exec w).1 = Except.ok ()
    ∧ (responses ((uploadImage env req).exec w).2.log).length = 1
    ∧ (((uploadImage env req).exec w).2.log.any Event.isRaised = true →
        ∃ body, responses ((uploadImage env req).exec w).2.log = [(500, body)]
          ∧ hasMessage body = true) := by
  simp only [Act.exec, uploadImage, uploadImageToCloudinary]
  rcases hfile : req.file with _ | f
  · simp [bind, Act.bind, resStatus, resJson, resCookie, resClearCookie, resCall, headersSent, Event.isJson, emit, responses, responsesFrom, Event.isRaised]
  · rcases hup : env.upload f.path "auto" w with ⟨(e | res), w1⟩ <;>
      simp only [hup, tryCatch, call, bind, Act.bind, resStatus, resJson, resCookie, resClearCookie, resCall, headersSent, Event.isJson, emit, pure, Act.pure]
    · rcases hdel : env.unlinkSync f.path w1 with ⟨(e2 | _), w2⟩ <;>
        simp [hdel, tryCatch, call, bind, Act.bind, resStatus, resJson, resCookie, resClearCookie, resCall, headersSent, Event.isJson, emit, pure, Act.pure,
          responses, responsesFrom, Event.isRaised, messageBody, hasMessage, JSVal.truthy]
    · rcases hdel : env.unlinkSync f.path w1 with ⟨(e2 | _), w2⟩ <;>
        simp only [hdel]
      · rcases hdel2 : env.unlinkSync f.path w2 with ⟨(e3 | _), w3⟩ <;>
          simp [hdel2, tryCatch, call, bind, Act.bind, resStatus, resJson, resCookie, resClearCookie, resCall, headersSent, Event.isJson, emit, pure, Act.pure,
            responses, responsesFrom, Event.isRaised, messageBody, hasMessage, JSVal.truthy]
      · cases hurl : (getField res "url").truthy <;>
          simp [hurl, tryCatch, call, bind, Act.bind, resStatus, resJson, resCookie, resClearCookie, resCall, headersSent, Event.isJson, emit, pure, Act.pure,
            responses, responsesFrom, Event.isRaised, messageBody, hasMessage]

/-- A property read either yields a value or throws, and logs nothing. -/
theorem member_cases {W : Type} (v : JSVal) (key : String) :
    (∃ r, ∀ s : Run W, member v key s = (Except.ok r, s))
    ∨ (∀ s : Run W, member v key s = (Except.error typeError, s)) := by
  cases v with
  | undefined => exact Or.inr (fun _ => rfl)
  | null => exact Or.inr (fun _ => rfl)
  | bool b => exact Or.inl ⟨JSVal.undefined, fun _ => rfl⟩
  | num n => exact Or.inl ⟨JSVal.undefined, fun _ => rfl⟩
  | str t => exact Or.inl ⟨JSVal.undefined, fun _ => rfl⟩
  | obj fields => exact Or.inl ⟨getField fields key, fun _ => rfl⟩

/-- Every response write is a `res.json` call. -/
theorem responsesFrom_length (log : List Event) :
    ∀ code, (responsesFrom code log).length = (log.filter Event.isJson).length := by
  induction log with
  | nil => intro code; rfl
  | cons ev rest ih => intro code; cases ev <;> simp [responsesFrom, Event.isJson, ih]

/-- A run with exactly one response write made one `res.json` call, and its
body went out. -/
theorem single_write {log : List Event} (h : (responses log).length = 1) :
    (log.filter Event.isJson).length = 1 ∧ (delivered log).length = 1 := by
  refine ⟨?_, ?_⟩
  · rw [← responsesFrom_length log 200]; exact h
  · simp [delivered, h]

/-- A completed `refreshToken` made exactly one response write. -/
theorem refreshToken_completed_single_write {W : Type} (env : Env W) (req : Request) (w : W)
    (hdone : ((refreshToken env req).exec w).1 = Except.ok ()) :
    (responses ((refreshToken env req).exec w).2.log).length = 1 := by
  revert hdone
  simp only [Act.exec, refreshToken, generateAccessToken]
  cases ht : ((getField req.cookies "refreshToken").or
      (getField req.body "refreshToken")).truthy with
  | false =>
    simp [bind, Act.bind, resStatus, resJson, resCookie, resClearCookie, resCall, headersSent, Event.isJson, emit, responses, responsesFrom]
  | true =>
  rcases hver : env.verify ((getField req.cookies "refreshToken").or
      (getField req.body "refreshToken")) env.REFRESH_JWT_SECRET w with ⟨(e | d), w1⟩
  · simp [hver, call, bind, Act.bind]
  · rcases @member_cases W d "email" with ⟨email, hmem⟩ | hmem
    · rcases hfind : env.findOne (emailClaim email) w1 with ⟨(e | (_ | u)), w2⟩ <;>
        simp [hver, hmem, hfind, call, bind, Act.bind, resStatus, resJson, resCookie, resClearCookie, resCall, headersSent, Event.isJson, emit, responses, responsesFrom]
      rcases hsign : env.sign (emailClaim u.email) env.ACCESS_JWT_SECRET "6h" w2
        with ⟨(e | t), w3⟩ <;>
        simp [hsign, call, bind, Act.bind, resStatus, resJson, resCookie, resClearCookie, resCall, headersSent, Event.isJson, emit, responses, responsesFrom]
    · simp [hver, call, hmem, bind, Act.bind]

/-! ## Registration -/

/-- C1: when all three fields are present and the lookup by the email returns an
existing user, `registerUser` answers 401 "user already exists" and does nothing
else: the trace is the lookup and the response, with no `User.create`, no
`jwt.sign` and no cookie. -/
theorem registerUser_existing_email_conflict {W : Type} (env : Env W) (req : Request)
    (w w1 : W) (existing : UserDoc)
    (hu : (getField req.body "userName").truthy = true)
    (he : (getField req.body "email").truthy = true)
    (hp : (getField req.body "password").truthy = true)
    (hfind : env.findOne (emailClaim (getField req.body "email")) w
      = (Except.ok (some existing), w1)) :
    (registerUser env req).exec w =
        (Except.ok (),
          { world := w1,
            log := [Event.findOne (emailClaim (getField req.body "email")),
                    Event.status 401, Event.json (messageBody "user already exists")] })
      ∧ responses ((registerUser env req).exec w).2.log
          = [(401, messageBody "user already exists")]
      ∧ ((registerUser env req).exec w).2.log.any Event.isCreate = false
      ∧ ((registerUser env req).exec w).2.log.any Event.isSign = false
      ∧ ((registerUser env req).exec w).2.log.any Event.isCookie = false := by
  have h : (registerUser env req).exec w =
        (Except.ok (),
          { world := w1,
            log := [Event.findOne (emailClaim (getField req.body "email")),
                    Event.status 401, Event.json (messageBody "user already exists")] }) := by
    simp [Act.exec, registerUser, hu, he, hp, tryCatch, call, hfind, bind, Act.bind,
      resStatus, resJson, resCookie, resClearCookie, resCall, headersSent, Event.isJson, emit]
  rw [h]
  simp [responses, responsesFrom, Event.isCreate, Event.isSign, Event.isCookie]

/-- Witness for C1: alice registers again while her document is in the store. -/
theorem registerUser_existing_email_conflict_witness :
    responses ((registerUser memEnv aliceRegister).exec [aliceDoc]).2.log
      = [(401, messageBody "user already exists")] :=
  (registerUser_existing_email_conflict memEnv aliceRegister [aliceDoc] [aliceDoc] aliceDoc
    (by decide) (by decide) (by decide) (by rfl)).2.1

/-- C2: when at least one of the three fields is falsy (absent, or empty),
`registerUser` answers 400 with the message of the first falsy field in the
order userName, email, password, and touches nothing else: the trace is the
response alone (no `User.findOne`, no `User.create`) and the world is unchanged. -/
theorem registerUser_missing_field {W : Type} (env : Env W) (req : Request) (w : W)
    (hmissing : (getField req.body "userName").truthy = false
      ∨ (getField req.body "email").truthy = false
      ∨ (getField req.body "password").truthy = false) :
    ((registerUser env req).exec w).1 = Except.ok ()
      ∧ ((registerUser env req).exec w).2.world = w
      ∧ ((registerUser env req).exec w).2.log.any Event.isFindOne = false
      ∧ ((registerUser env req).exec w).2.log.any Event.isCreate = false
      ∧ (((getField req.body "userName").truthy = false
            ∧ ((registerUser env req).exec w).2.log
                = [Event.status 400, Event.json (messageBody "username required")]
            ∧ responses ((registerUser env req).exec w).2.log
                = [(400, messageBody "username required")])
          ∨ ((getField req.body "userName").truthy = true
            ∧ (getField req.body "email").truthy = false
            ∧ ((registerUser env req).exec w).2.log
                = [Event.status 400, Event.json (messageBody "email required")]
            ∧ responses ((registerUser env req).exec w).2.log
                = [(400, messageBody "email required")])
          ∨ ((getField req.body "userName").truthy = true
            ∧ (getField req.body "email").truthy = true
            ∧ (getField req.body "password").truthy = false
            ∧ ((registerUser env req).exec w).2.log
                = [Event.status 400, Event.json (messageBody "password required")]
            ∧ responses ((registerUser env req).exec w).2.log
                = [(400, messageBody "password required")])) := by
  obtain ⟨h1, h2, h3⟩ := registerUser_validation env req w
  cases hu : (getField req.body "userName").truthy with
  | false =>
    rw [h1 hu]
    simp [responses, responsesFrom, Event.isFindOne, Event.isCreate]
  | true =>
    cases he : (getField req.body "email").truthy with
    | false =>
      rw [h2 hu he]
      simp [responses, responsesFrom, Event.isFindOne, Event.isCreate]
    | true =>
      cases hp : (getField req.body "password").truthy with
      | false =>
        rw [h3 hu he hp]
        simp [responses, responsesFrom, Event.isFindOne, Event.isCreate]
      | true => simp [hu, he, hp] at hmissing

/-- Witness for C2: a registration without a password, the email being empty. -/
theorem registerUser_missing_field_witness :
    responses ((registerUser memEnv
        { body := [("userName", JSVal.str "alice"), ("email", JSVal.str "")],
          cookies := [], file := none }).exec []).2.log
      = [(400, messageBody "email required")] := by
  have h := (registerUser_missing_field memEnv
        { body := [("userName", JSVal.str "alice"), ("email", JSVal.str "")],
          cookies := [], file := none } [] (Or.inr (Or.inl (by decide)))).2.2.2.2
  rcases h with h | h | h
  · exact absurd h.1 (by decide)
  · exact h.2.2.2
  · exact absurd h.2.1 (by decide)

/-- C3: on a successful registration (all three fields present, no user with the
email, `User.create` returns a record, both signatures return) the access token
is `jwt.sign` of the claim with the email of the created record under the access
secret with `expiresIn` 6h, the refresh token is `jwt.sign` of the same claim
under the refresh secret with `expiresIn` 7d, the `refreshToken` cookie is set
HTTP-only to that refresh token, and the body carries both tokens and the
userName and email of the created record. -/
theorem registerUser_success_tokens {W : Type} (env : Env W) (req : Request)
    (w w1 w2 w3 w4 : W) (created : UserDoc) (accessToken refreshTok : String)
    (hu : (getField req.body "userName").truthy = true)
    (he : (getField req.body "email").truthy = true)
    (hp : (getField req.body "password").truthy = true)
    (hfind : env.findOne (emailClaim (getField req.body "email")) w = (Except.ok none, w1))
    (hcreate : env.create (newUserRecord (getField req.body "userName")
        (getField req.body "email") (getField req.body "password")) w1
      = (Except.ok created, w2))
    (haccess : env.sign (emailClaim created.email) env.ACCESS_JWT_SECRET "6h" w2
      = (Except.ok accessToken, w3))
    (hrefresh : env.sign (emailClaim created.email) env.REFRESH_JWT_SECRET "7d" w3
      = (Except.ok refreshTok, w4)) :
    (registerUser env req).exec w =
        (Except.ok (),
          { world := w4,
            log := [Event.findOne (emailClaim (getField req.body "email")),
                    Event.create (newUserRecord (getField req.body "userName")
                      (getField req.body "email") (getField req.body "password")),
                    Event.sign (emailClaim created.email) env.ACCESS_JWT_SECRET "6h",
                    Event.sign (emailClaim created.email) env.REFRESH_JWT_SECRET "7d",
                    Event.cookie "refreshToken" (JSVal.str refreshTok) true false,
                    Event.json (JSVal.obj [
                      ("message", JSVal.str "user registered and logged in successfully"),
                      ("accessToken", JSVal.str accessToken),
                      ("refreshToken", JSVal.str refreshTok),
                      ("data", JSVal.obj [("userName", created.userName),
                                          ("email", created.email)])])] })
      ∧ responses ((registerUser env req).exec w).2.log =
          [(200, JSVal.obj [
              ("message", JSVal.str "user registered and logged in successfully"),
              ("accessToken", JSVal.str accessToken),
              ("refreshToken", JSVal.str refreshTok),
              ("data", JSVal.obj [("userName", created.userName),
                                  ("email", created.email)])])] := by
  have h : (registerUser env req).exec w =
        (Except.ok (),
          { world := w4,
            log := [Event.findOne (emailClaim (getField req.body "email")),
                    Event.create (newUserRecord (getField req.body "userName")
                      (getField req.body "email") (getField req.body "password")),
                    Event.sign (emailClaim created.email) env.ACCESS_JWT_SECRET "6h",
                    Event.sign (emailClaim created.email) env.REFRESH_JWT_SECRET "7d",
                    Event.cookie "refreshToken" (JSVal.str refreshTok) true false,
                    Event.json (JSVal.obj [
                      ("message", JSVal.str "user registered and logged in successfully"),
                      ("accessToken", JSVal.str accessToken),
                      ("refreshToken", JSVal.str refreshTok),
                      ("data", JSVal.obj [("userName", created.userName),
                                          ("email", created.email)])])] }) := by
    simp [Act.exec, registerUser, generateAccessToken, generateRefreshToken, hu, he, hp,
      tryCatch, call, hfind, hcreate, haccess, hrefresh, bind, Act.bind, resJson, resCookie, resClearCookie, resCall, headersSent, Event.isJson, emit]
  rw [h]
  simp [responses, responsesFrom]

/-- Witness for C3: alice registers into the empty store. -/
theorem registerUser_success_tokens_witness :
    responses ((registerUser memEnv aliceRegister).exec []).2.log =
      [(200, JSVal.obj [
          ("message", JSVal.str "user registered and logged in successfully"),
          ("accessToken", JSVal.str "6h.a.a@x.com"),
          ("refreshToken", JSVal.str "7d.r.a@x.com"),
          ("data", JSVal.obj [("userName", JSVal.str "alice"),
                              ("email", JSVal.str "a@x.com")])])] :=
  (registerUser_success_tokens memEnv aliceRegister [] [] [aliceDoc] [aliceDoc] [aliceDoc]
    aliceDoc "6h.a.a@x.com" "7d.r.a@x.com" (by decide) (by decide) (by decide)
    (by rfl) (by rfl) (by rfl) (by rfl)).2

/-! ## Login -/

/-- C4: with email and password both present, `loginUser` is decided by the
lookup and the comparison.  No user: 404 "no user found".  A user whose hash does
not match: 400 "incorrect password", nothing signed, no cookie.  A user whose
hash matches (and both signatures return): both tokens are `jwt.sign` of the
claim with the email of that user, the `refreshToken` cookie is set to the refresh
token, and the body carries the tokens and the userName, email and id of the user. -/
theorem loginUser_outcomes {W : Type} (env : Env W) (req : Request) (w : W)
    (he : (getField req.body "email").truthy = true)
    (hp : (getField req.body "password").truthy = true) :
    (∀ w1, env.findOne (emailClaim (getField req.body "email")) w = (Except.ok none, w1) →
        (loginUser env req).exec w = (Except.ok (),
          { world := w1,
            log := [Event.findOne (emailClaim (getField req.body "email")),
                    Event.status 404, Event.json (messageBody "no user found")] })
        ∧ responses ((loginUser env req).exec w).2.log = [(404, messageBody "no user found")])
    ∧ (∀ user w1 w2,
        env.findOne (emailClaim (getField req.body "email")) w = (Except.ok (some user), w1) →
        env.compare (getField req.body "password") user.password w1 = (Except.ok false, w2) →
        (loginUser env req).exec w = (Except.ok (),
          { world := w2,
            log := [Event.findOne (emailClaim (getField req.body "email")),
                    Event.compare (getField req.body "password") user.password,
                    Event.status 400, Event.json (messageBody "incorrect password")] })
        ∧ responses ((loginUser env req).exec w).2.log
            = [(400, messageBody "incorrect password")]
        ∧ ((loginUser env req).exec w).2.log.any Event.isSign = false
        ∧ ((loginUser env req).exec w).2.log.any Event.isCookie = false)
    ∧ (∀ user w1 w2 w3 w4 accessToken refreshTok,
        env.findOne (emailClaim (getField req.body "email")) w = (Except.ok (some user), w1) →
        env.compare (getField req.body "password") user.password w1 = (Except.ok true, w2) →
        env.sign (emailClaim user.email) env.ACCESS_JWT_SECRET "6h" w2
          = (Except.ok accessToken, w3) →
        env.sign (emailClaim user.email) env.REFRESH_JWT_SECRET "7d" w3
          = (Except.ok refreshTok, w4) →
        (loginUser env req).exec w = (Except.ok (),
          { world := w4,
            log := [Event.findOne (emailClaim (getField req.body "email")),
                    Event.compare (getField req.body "password") user.password,
                    Event.sign (emailClaim user.email) env.ACCESS_JWT_SECRET "6h",
                    Event.sign (emailClaim user.email) env.REFRESH_JWT_SECRET "7d",
                    Event.cookie "refreshToken" (JSVal.str refreshTok) true false,
                    Event.json (JSVal.obj [
                      ("message", JSVal.str "user logged in successfully"),
                      ("accessToken", JSVal.str accessToken),
                      ("refreshToken", JSVal.str refreshTok),
                      ("data", JSVal.obj [("userName", user.userName),
                                          ("email", user.email),
                                          ("id", user.id)])])] })
        ∧ responses ((loginUser env req).exec w).2.log =
            [(200, JSVal.obj [
                ("message", JSVal.str "user logged in successfully"),
                ("accessToken", JSVal.str accessToken),
                ("refreshToken", JSVal.str refreshTok),
                ("data", JSVal.obj [("userName", user.userName),
                                    ("email", user.email),
                                    ("id", user.id)])])]) := by
  refine ⟨fun w1 hfind => ?_, fun user w1 w2 hfind hcmp => ?_,
    fun user w1 w2 w3 w4 accessToken refreshTok hfind hcmp haccess hrefresh => ?_⟩
  · have h : (loginUser env req).exec w = (Except.ok (),
          { world := w1,
            log := [Event.findOne (emailClaim (getField req.body "email")),
                    Event.status 404, Event.json (messageBody "no user found")] }) := by
      simp [Act.exec, loginUser, he, hp, tryCatch, call, hfind, bind, Act.bind,
        resStatus, resJson, resCookie, resClearCookie, resCall, headersSent, Event.isJson, emit]
    rw [h]
    simp [responses, responsesFrom]
  · have h : (loginUser env req).exec w = (Except.ok (),
          { world := w2,
            log := [Event.findOne (emailClaim (getField req.body "email")),
                    Event.compare (getField req.body "password") user.password,
                    Event.status 400, Event.json (messageBody "incorrect password")] }) := by
      simp [Act.exec, loginUser, he, hp, tryCatch, call, hfind, hcmp, bind, Act.bind,
        resStatus, resJson, resCookie, resClearCookie, resCall, headersSent, Event.isJson, emit]
    rw [h]
    simp [responses, responsesFrom, Event.isSign, Event.isCookie]
  · have h : (loginUser env req).exec w = (Except.ok (),
          { world := w4,
            log := [Event.findOne (emailClaim (getField req.body "email")),
                    Event.compare (getField req.body "password") user.password,
                    Event.sign (emailClaim user.email) env.ACCESS_JWT_SECRET "6h",
                    Event.sign (emailClaim user.email) env.REFRESH_JWT_SECRET "7d",
                    Event.cookie "refreshToken" (JSVal.str refreshTok) true false,
                    Event.json (JSVal.obj [
                      ("message", JSVal.str "user logged in successfully"),
                      ("accessToken", JSVal.str accessToken),
                      ("refreshToken", JSVal.str refreshTok),
                      ("data", JSVal.obj [("userName", user.userName),
                                          ("email", user.email),
                                          ("id", user.id)])])] }) := by
      simp [Act.exec, loginUser, generateAccessToken, generateRefreshToken, he, hp, tryCatch,
        call, hfind, hcmp, haccess, hrefresh, bind, Act.bind, resJson, resCookie, resClearCookie, resCall, headersSent, Event.isJson, emit]
    rw [h]
    simp [responses, responsesFrom]

/-- Witness for C4: against a store holding alice, an unknown email, a wrong
password and the right password. -/
theorem loginUser_outcomes_witness :
    responses ((loginUser memEnv (loginRequest "b@x.com" "secret1")).exec [aliceDoc]).2.log
        = [(404, messageBody "no user found")]
    ∧ responses ((loginUser memEnv (loginRequest "a@x.com" "guess")).exec [aliceDoc]).2.log
        = [(400, messageBody "incorrect password")]
    ∧ responses ((loginUser memEnv (loginRequest "a@x.com" "secret1")).exec [aliceDoc]).2.log
        = [(200, JSVal.obj [
            ("message", JSVal.str "user logged in successfully"),
            ("accessToken", JSVal.str "6h.a.a@x.com"),
            ("refreshToken", JSVal.str "7d.r.a@x.com"),
            ("data", JSVal.obj [("userName", JSVal.str "alice"),
                                ("email", JSVal.str "a@x.com"),
                                ("id", JSVal.num 0)])])] :=
  ⟨((loginUser_outcomes memEnv (loginRequest "b@x.com" "secret1") [aliceDoc]
        (by decide) (by decide)).1 [aliceDoc] (by rfl)).2,
   ((loginUser_outcomes memEnv (loginRequest "a@x.com" "guess") [aliceDoc]
        (by decide) (by decide)).2.1 aliceDoc [aliceDoc] [aliceDoc] (by rfl) (by rfl)).2.1,
   ((loginUser_outcomes memEnv (loginRequest "a@x.com" "secret1") [aliceDoc]
        (by decide) (by decide)).2.2 aliceDoc [aliceDoc] [aliceDoc] [aliceDoc] [aliceDoc]
        "6h.a.a@x.com" "7d.r.a@x.com" (by rfl) (by rfl) (by rfl) (by rfl)).2⟩

/-! ## Token refresh -/

/-- C5: `refreshToken` takes the token from the cookie, else from the body.
When neither holds one it answers 401 "no refresh token found!" and calls
nothing (no `jwt.verify`, no `User.findOne`).  When the token verifies under the
refresh secret to claims whose email finds a user (and the signature returns),
the first response carries `jwt.sign` of the claim with the email of that user under
the access secret with `expiresIn` 6h; that is the only signature, and no cookie
is set (the second `res.json` then finds the response already sent and throws).
When the token verifies and no user has the email, it answers 404. -/
theorem refreshToken_outcomes {W : Type} (env : Env W) (req : Request) (w : W) :
    (((getField req.cookies "refreshToken").truthy = false →
      (getField req.body "refreshToken").truthy = false →
        (refreshToken env req).exec w = (Except.ok (),
          { world := w,
            log := [Event.status 401, Event.json (messageBody "no refresh token found!")] })
        ∧ responses ((refreshToken env req).exec w).2.log
            = [(401, messageBody "no refresh token found!")]
        ∧ ((refreshToken env req).exec w).2.log.any Event.isVerify = false
        ∧ ((refreshToken env req).exec w).2.log.any Event.isFindOne = false))
    ∧ (∀ token claims user w1 w2 w3 accessToken,
        token = (if (getField req.cookies "refreshToken").truthy = true
                  then getField req.cookies "refreshToken"
                  else getField req.body "refreshToken") →
        token.truthy = true →
        env.verify token env.REFRESH_JWT_SECRET w = (Except.ok (JSVal.obj claims), w1) →
        env.findOne (emailClaim (getField claims "email")) w1 = (Except.ok (some user), w2) →
        env.sign (emailClaim user.email) env.ACCESS_JWT_SECRET "6h" w2
          = (Except.ok accessToken, w3) →
        (refreshToken env req).exec w = (Except.error headersSentError,
          { world := w3,
            log := [Event.verify token env.REFRESH_JWT_SECRET,
                    Event.findOne (emailClaim (getField claims "email")),
                    Event.sign (emailClaim user.email) env.ACCESS_JWT_SECRET "6h",
                    Event.json (JSVal.obj [("message", JSVal.str "access token generated"),
                                           ("accesstoken", JSVal.str accessToken)]),
                    Event.json (JSVal.obj [("decodedToken", JSVal.obj claims)])] })
        ∧ (responses ((refreshToken env req).exec w).2.log).head?
            = some (200, JSVal.obj [("message", JSVal.str "access token generated"),
                                    ("accesstoken", JSVal.str accessToken)])
        ∧ ((refreshToken env req).exec w).2.log.filter Event.isSign
            = [Event.sign (emailClaim user.email) env.ACCESS_JWT_SECRET "6h"]
        ∧ ((refreshToken env req).exec w).2.log.any Event.isCookie = false)
    ∧ (∀ token claims w1 w2,
        token = (if (getField req.cookies "refreshToken").truthy = true
                  then getField req.cookies "refreshToken"
                  else getField req.body "refreshToken") →
        token.truthy = true →
        env.verify token env.REFRESH_JWT_SECRET w = (Except.ok (JSVal.obj claims), w1) →
        env.findOne (emailClaim (getField claims "email")) w1 = (Except.ok none, w2) →
        (refreshToken env req).exec w = (Except.ok (),
          { world := w2,
            log := [Event.verify token env.REFRESH_JWT_SECRET,
                    Event.findOne (emailClaim (getField claims "email")),
                    Event.status 404, Event.json (messageBody "invalid token")] })
        ∧ responses ((refreshToken env req).exec w).2.log
            = [(404, messageBody "invalid token")]) := by
  refine ⟨fun hc hb => ?_, fun token claims user w1 w2 w3 accessToken htok ht hver hfind hsign => ?_,
    fun token claims w1 w2 htok ht hver hfind => ?_⟩
  · have h : (refreshToken env req).exec w = (Except.ok (),
          { world := w,
            log := [Event.status 401, Event.json (messageBody "no refresh token found!")] }) := by
      simp [Act.exec, refreshToken, JSVal.or, hc, hb, bind, Act.bind, resStatus, resJson, resCookie, resClearCookie, resCall, headersSent, Event.isJson, emit]
    rw [h]
    simp [responses, responsesFrom, Event.isVerify, Event.isFindOne]
  · have ht2 : ((getField req.cookies "refreshToken").or
        (getField req.body "refreshToken")) = token := by
      rw [htok]; rfl
    have h : (refreshToken env req).exec w = (Except.error headersSentError,
          { world := w3,
            log := [Event.verify token env.REFRESH_JWT_SECRET,
                    Event.findOne (emailClaim (getField claims "email")),
                    Event.sign (emailClaim user.email) env.ACCESS_JWT_SECRET "6h",
                    Event.json (JSVal.obj [("message", JSVal.str "access token generated"),
                                           ("accesstoken", JSVal.str accessToken)]),
                    Event.json (JSVal.obj [("decodedToken", JSVal.obj claims)])] }) := by
      simp [Act.exec, refreshToken, generateAccessToken, ht2, ht, call, hver, member, Act.pure,
        hfind, hsign, bind, Act.bind, resJson, resCookie, resClearCookie, resCall, headersSent, Event.isJson, emit]
    rw [h]
    simp [responses, responsesFrom, Event.isSign, Event.isCookie]
  · have ht2 : ((getField req.cookies "refreshToken").or
        (getField req.body "refreshToken")) = token := by
      rw [htok]; rfl
    have h : (refreshToken env req).exec w = (Except.ok (),
          { world := w2,
            log := [Event.verify token env.REFRESH_JWT_SECRET,
                    Event.findOne (emailClaim (getField claims "email")),
                    Event.status 404, Event.json (messageBody "invalid token")] }) := by
      simp [Act.exec, refreshToken, ht2, ht, call, hver, member, Act.pure,
        hfind, bind, Act.bind, resStatus, resJson, resCookie, resClearCookie, resCall, headersSent, Event.isJson, emit]
    rw [h]
    simp [responses, responsesFrom]

/-- Witness for C5: no token at all; the cookie token of alice with alice in the
store; the same token against an empty store. -/
theorem refreshToken_outcomes_witness :
    responses ((refreshToken memEnv emptyRequest).exec [aliceDoc]).2.log
        = [(401, messageBody "no refresh token found!")]
    ∧ (responses ((refreshToken memEnv (cookieRefresh "7d.r.a@x.com")).exec [aliceDoc]).2.log).head?
        = some (200, JSVal.obj [("message", JSVal.str "access token generated"),
                                ("accesstoken", JSVal.str "6h.a.a@x.com")])
    ∧ responses ((refreshToken memEnv (cookieRefresh "7d.r.a@x.com")).exec []).2.log
        = [(404, messageBody "invalid token")] :=
  ⟨((refreshToken_outcomes memEnv emptyRequest [aliceDoc]).1 (by decide) (by decide)).2.1,
   ((refreshToken_outcomes memEnv (cookieRefresh "7d.r.a@x.com") [aliceDoc]).2.1
      (JSVal.str "7d.r.a@x.com") [("email", JSVal.str "a@x.com")] aliceDoc
      [aliceDoc] [aliceDoc] [aliceDoc] "6h.a.a@x.com"
      (by rfl) (by decide) (by rfl) (by rfl) (by rfl)).2.1,
   ((refreshToken_outcomes memEnv (cookieRefresh "7d.r.a@x.com") []).2.2
      (JSVal.str "7d.r.a@x.com") [("email", JSVal.str "a@x.com")] [] []
      (by rfl) (by decide) (by rfl) (by rfl)).2⟩

/-! ## Image upload -/

/-- C6: for a request that carries a file, when the one deletion the handler
reaches (of `req.file.path`, in the world the upload left) does not fail,
`uploadImage` completes in the world that this deletion produced, having called
`fs.unlinkSync` exactly once, on `req.file.path`, with no response written
before it, whether the upload returned or raised.  When the upload returns a
truthy url the response is the success message with that url; when it returns
no url, or raises, the response is a 500. -/
theorem uploadImage_deletes_temp_file {W : Type} (env : Env W) (req : Request) (w : W)
    (file : File) (hfile : req.file = some file)
    (hdel : (env.unlinkSync file.path (env.upload file.path "auto" w).2).1 = Except.ok ()) :
    ((uploadImage env req).exec w).1 = Except.ok ()
    ∧ ((uploadImage env req).exec w).2.world
        = (env.unlinkSync file.path (env.upload file.path "auto" w).2).2
    ∧ ((uploadImage env req).exec w).2.log.filter Event.isUnlink
        = [Event.unlinkSync file.path]
    ∧ (((uploadImage env req).exec w).2.log.takeWhile (fun ev => !ev.isUnlink)).any
        Event.isJson = false
    ∧ (∀ result w1, env.upload file.path "auto" w = (Except.ok result, w1) →
        (getField result "url").truthy = true →
        ((uploadImage env req).exec w).2.log
          = [Event.upload file.path "auto", Event.unlinkSync file.path,
             Event.json (JSVal.obj [("message", JSVal.str "image uploaded successfully"),
                                    ("url", getField result "url")])]
        ∧ responses ((uploadImage env req).exec w).2.log
          = [(200, JSVal.obj [("message", JSVal.str "image uploaded successfully"),
                              ("url", getField result "url")])])
    ∧ (∀ result w1, env.upload file.path "auto" w = (Except.ok result, w1) →
        (getField result "url").truthy = false →
        ((uploadImage env req).exec w).2.log
          = [Event.upload file.path "auto", Event.unlinkSync file.path,
             Event.status 500, Event.json (messageBody "error occured while uploading image")]
        ∧ responses ((uploadImage env req).exec w).2.log
          = [(500, messageBody "error occured while uploading image")])
    ∧ (∀ e w1, env.upload file.path "auto" w = (Except.error e, w1) →
        ((uploadImage env req).exec w).2.log
          = [Event.upload file.path "auto", Event.raised e, Event.unlinkSync file.path,
             Event.status 500, Event.json (messageBody "error occured while uploading image")]
        ∧ responses ((uploadImage env req).exec w).2.log
          = [(500, messageBody "error occured while uploading image")]) := by
  simp only [Act.exec, uploadImage, uploadImageToCloudinary, hfile]
  rcases hup : env.upload file.path "auto" w with ⟨(e | res), w1⟩
  · rw [hup] at hdel
    rcases hq : env.unlinkSync file.path w1 with ⟨r, w2⟩
    rw [hq] at hdel
    simp only at hdel
    subst hdel
    simp [hup, hq, tryCatch, call, bind, Act.bind, resStatus, resJson, resCookie, resClearCookie, resCall, headersSent, Event.isJson, emit, pure, Act.pure,
      responses, responsesFrom, Event.isUnlink, JSVal.truthy]
  · rw [hup] at hdel
    rcases hq : env.unlinkSync file.path w1 with ⟨r, w2⟩
    rw [hq] at hdel
    simp only at hdel
    subst hdel
    cases hurl : (getField res "url").truthy <;>
      simp [hup, hq, hurl, tryCatch, call, bind, Act.bind, resStatus, resJson, resCookie, resClearCookie, resCall, headersSent, Event.isJson, emit, pure,
        Act.pure, responses, responsesFrom, Event.isUnlink]

/-- Witness for C6: on a disk holding the temporary file and another file, an
upload that succeeds and an upload that is rejected both end with the temporary
file gone and the other file in place. -/
theorem uploadImage_deletes_temp_file_witness :
    (((uploadImage diskEnv (uploadRequest "/tmp/cat.png")).exec
          ["/tmp/cat.png", "/tmp/keep.png"]).2.world = ["/tmp/keep.png"]
      ∧ responses ((uploadImage diskEnv (uploadRequest "/tmp/cat.png")).exec
          ["/tmp/cat.png", "/tmp/keep.png"]).2.log
        = [(200, JSVal.obj [("message", JSVal.str "image uploaded successfully"),
                            ("url", JSVal.str "http://cdn/cat.png")])])
    ∧ (((uploadImage diskEnv (uploadRequest "/tmp/dog.png")).exec
          ["/tmp/keep.png", "/tmp/dog.png"]).2.world = ["/tmp/keep.png"]
      ∧ responses ((uploadImage diskEnv (uploadRequest "/tmp/dog.png")).exec
          ["/tmp/keep.png", "/tmp/dog.png"]).2.log
        = [(500, messageBody "error occured while uploading image")]) :=
  ⟨⟨(uploadImage_deletes_temp_file diskEnv (uploadRequest "/tmp/cat.png")
        ["/tmp/cat.png", "/tmp/keep.png"] { path := JSVal.str "/tmp/cat.png" } rfl
        (by rfl)).2.1,
    ((uploadImage_deletes_temp_file diskEnv (uploadRequest "/tmp/cat.png")
        ["/tmp/cat.png", "/tmp/keep.png"] { path := JSVal.str "/tmp/cat.png" } rfl
        (by rfl)).2.2.2.2.1
        [("url", JSVal.str "http://cdn/cat.png")] ["/tmp/cat.png", "/tmp/keep.png"]
        (by rfl) (by decide)).2⟩,
   ⟨(uploadImage_deletes_temp_file diskEnv (uploadRequest "/tmp/dog.png")
        ["/tmp/keep.png", "/tmp/dog.png"] { path := JSVal.str "/tmp/dog.png" } rfl
        (by rfl)).2.1,
    ((uploadImage_deletes_temp_file diskEnv (uploadRequest "/tmp/dog.png")
        ["/tmp/keep.png", "/tmp/dog.png"] { path := JSVal.str "/tmp/dog.png" } rfl
        (by rfl)).2.2.2.2.2.2
        (JSVal.str "upload failed") ["/tmp/keep.png", "/tmp/dog.png"] (by rfl)).2⟩⟩

/-- C7: with no file attached, `uploadImage` answers 400 "no image file
uploaded" and does nothing else: no upload, no deletion, world unchanged. -/
theorem uploadImage_no_file {W : Type} (env : Env W) (req : Request) (w : W)
    (hfile : req.file = none) :
    (uploadImage env req).exec w = (Except.ok (),
        { world := w,
          log := [Event.status 400, Event.json (messageBody "no image file uploaded")] })
    ∧ responses ((uploadImage env req).exec w).2.log
        = [(400, messageBody "no image file uploaded")]
    ∧ ((uploadImage env req).exec w).2.log.any Event.isUpload = false
    ∧ ((uploadImage env req).exec w).2.log.any Event.isUnlink = false := by
  have h : (uploadImage env req).exec w = (Except.ok (),
        { world := w,
          log := [Event.status 400, Event.json (messageBody "no image file uploaded")] }) := by
    simp [Act.exec, uploadImage, hfile, bind, Act.bind, resStatus, resJson, resCookie, resClearCookie, resCall, headersSent, Event.isJson, emit]
  rw [h]
  simp [responses, responsesFrom, Event.isUpload, Event.isUnlink]

/-- Witness for C7: the request with nothing in it. -/
theorem uploadImage_no_file_witness :
    responses ((uploadImage memEnv emptyRequest).exec []).2.log
      = [(400, messageBody "no image file uploaded")] :=
  (uploadImage_no_file memEnv emptyRequest [] rfl).2.1

/-! ## Logout -/

/-- C8: for every request, `logoutUser` clears the `refreshToken` cookie and
answers the success message; it calls no collaborator and leaves the world as it
was, so `refreshToken` on any request gives the same result after the logout as
before it. -/
theorem logoutUser_clears_cookie_only {W : Type} (env : Env W) (req : Request) (w : W) :
    (logoutUser env req).exec w = (Except.ok (),
        { world := w,
          log := [Event.clearCookie "refreshToken",
                  Event.json (messageBody "user logout successfully")] })
    ∧ responses ((logoutUser env req).exec w).2.log
        = [(200, messageBody "user logout successfully")]
    ∧ ((logoutUser env req).exec w).2.log.any Event.isFindOne = false
    ∧ ((logoutUser env req).exec w).2.log.any Event.isCreate = false
    ∧ (∀ later : Request,
        (refreshToken env later).exec ((logoutUser env req).exec w).2.world
          = (refreshToken env later).exec w) := by
  have h : (logoutUser env req).exec w = (Except.ok (),
        { world := w,
          log := [Event.clearCookie "refreshToken",
                  Event.json (messageBody "user logout successfully")] }) := by
    simp [Act.exec, logoutUser, bind, Act.bind, resJson, resCookie, resClearCookie, resCall, headersSent, Event.isJson, emit]
  rw [h]
  simp [responses, responsesFrom, Event.isFindOne, Event.isCreate]

/-! ## Failures and response counts -/

/-- C9: `registerUser`, `loginUser` and `uploadImage` never throw, and whenever
a collaborator raised during the run the response is a single 500 whose body has
a message field.  `refreshToken` is the exception: when `jwt.verify` raises, or
when the lookup raises after a successful verification, the error leaves the
handler and no response is written. -/
theorem failures_caught_except_in_refreshToken {W : Type} (env : Env W) (req : Request)
    (w : W) :
    (((registerUser env req).exec w).1 = Except.ok ()
      ∧ (((registerUser env req).exec w).2.log.any Event.isRaised = true →
          ∃ body, responses ((registerUser env req).exec w).2.log = [(500, body)]
            ∧ hasMessage body = true))
    ∧ (((loginUser env req).exec w).1 = Except.ok ()
      ∧ (((loginUser env req).exec w).2.log.any Event.isRaised = true →
          ∃ body, responses ((loginUser env req).exec w).2.log = [(500, body)]
            ∧ hasMessage body = true))
    ∧ (((uploadImage env req).exec w).1 = Except.ok ()
      ∧ (((uploadImage env req).exec w).2.log.any Event.isRaised = true →
          ∃ body, responses ((uploadImage env req).exec w).2.log = [(500, body)]
            ∧ hasMessage body = true))
    ∧ (∀ e w1,
        ((getField req.cookies "refreshToken").or (getField req.body "refreshToken")).truthy
          = true →
        env.verify ((getField req.cookies "refreshToken").or (getField req.body "refreshToken"))
          env.REFRESH_JWT_SECRET w = (Except.error e, w1) →
        (refreshToken env req).exec w = (Except.error e,
          { world := w1,
            log := [Event.verify ((getField req.cookies "refreshToken").or
                      (getField req.body "refreshToken")) env.REFRESH_JWT_SECRET,
                    Event.raised e] })
        ∧ responses ((refreshToken env req).exec w).2.log = [])
    ∧ (∀ claims e w1 w2,
        ((getField req.cookies "refreshToken").or (getField req.body "refreshToken")).truthy
          = true →
        env.verify ((getField req.cookies "refreshToken").or (getField req.body "refreshToken"))
          env.REFRESH_JWT_SECRET w = (Except.ok (JSVal.obj claims), w1) →
        env.findOne (emailClaim (getField claims "email")) w1 = (Except.error e, w2) →
        (refreshToken env req).exec w = (Except.error e,
          { world := w2,
            log := [Event.verify ((getField req.cookies "refreshToken").or
                      (getField req.body "refreshToken")) env.REFRESH_JWT_SECRET,
                    Event.findOne (emailClaim (getField claims "email")),
                    Event.raised e] })
        ∧ responses ((refreshToken env req).exec w).2.log = []) := by
  refine ⟨⟨(registerUser_total env req w).1, (registerUser_total env req w).2.2⟩,
    ⟨(loginUser_total env req w).1, (loginUser_total env req w).2.2⟩,
    ⟨(uploadImage_total env req w).1, (uploadImage_total env req w).2.2⟩,
    fun e w1 ht hver => ?_, fun claims e w1 w2 ht hver hfind => ?_⟩
  · have h : (refreshToken env req).exec w = (Except.error e,
          { world := w1,
            log := [Event.verify ((getField req.cookies "refreshToken").or
                      (getField req.body "refreshToken")) env.REFRESH_JWT_SECRET,
                    Event.raised e] }) := by
      simp [Act.exec, refreshToken, ht, call, hver, bind, Act.bind]
    rw [h]
    simp [responses, responsesFrom]
  · have h : (refreshToken env req).exec w = (Except.error e,
          { world := w2,
            log := [Event.verify ((getField req.cookies "refreshToken").or
                      (getField req.body "refreshToken")) env.REFRESH_JWT_SECRET,
                    Event.findOne (emailClaim (getField claims "email")),
                    Event.raised e] }) := by
      simp [Act.exec, refreshToken, ht, call, hver, hfind, member, Act.pure, bind, Act.bind]
    rw [h]
    simp [responses, responsesFrom]

/-- Witness for C9: with the store unreachable a registration ends in a 500
response, while a refresh with a malformed token, and a refresh with a good token
against the unreachable store, throw without a response. -/
theorem failures_caught_except_in_refreshToken_witness :
    (∃ body, responses ((registerUser downEnv aliceRegister).exec []).2.log = [(500, body)]
        ∧ hasMessage body = true)
    ∧ ((refreshToken memEnv (cookieRefresh "garbage")).exec []).1
        = Except.error (JSVal.str "jwt malformed")
    ∧ responses ((refreshToken memEnv (cookieRefresh "garbage")).exec []).2.log = []
    ∧ ((refreshToken downEnv (cookieRefresh "7d.r.a@x.com")).exec []).1
        = Except.error (JSVal.str "store unavailable")
    ∧ responses ((refreshToken downEnv (cookieRefresh "7d.r.a@x.com")).exec []).2.log = [] :=
  ⟨(failures_caught_except_in_refreshToken downEnv aliceRegister []).1.2 (by rfl),
   congrArg Prod.fst ((failures_caught_except_in_refreshToken memEnv (cookieRefresh "garbage")
      []).2.2.2.1 (JSVal.str "jwt malformed") [] (by decide) (by rfl)).1,
   ((failures_caught_except_in_refreshToken memEnv (cookieRefresh "garbage")
      []).2.2.2.1 (JSVal.str "jwt malformed") [] (by decide) (by rfl)).2,
   congrArg Prod.fst ((failures_caught_except_in_refreshToken downEnv
      (cookieRefresh "7d.r.a@x.com") []).2.2.2.2 [("email", JSVal.str "a@x.com")]
      (JSVal.str "store unavailable") [] [] (by decide) (by rfl) (by rfl)).1,
   ((failures_caught_except_in_refreshToken downEnv
      (cookieRefresh "7d.r.a@x.com") []).2.2.2.2 [("email", JSVal.str "a@x.com")]
      (JSVal.str "store unavailable") [] [] (by decide) (by rfl) (by rfl)).2⟩

/-- C10: on the success path of `refreshToken` (token present, verified, user
found, token signed) the handler makes two response writes in sequence on the
one response object: `res.json` with the token payload, then `res.json` with the
decoded claims.  The first body goes out with status 200; the second call finds
the response already sent and throws, so the handler does not complete.  Every
completed run of `refreshToken`, and every run of `registerUser`, `loginUser`,
`logoutUser` and `uploadImage` (which always complete), makes exactly one
response write, and its body goes out. -/
theorem response_write_counts {W : Type} (env : Env W) (req : Request) (w : W) :
    (∀ claims user w1 w2 w3 accessToken,
        ((getField req.cookies "refreshToken").or (getField req.body "refreshToken")).truthy
          = true →
        env.verify ((getField req.cookies "refreshToken").or (getField req.body "refreshToken"))
          env.REFRESH_JWT_SECRET w = (Except.ok (JSVal.obj claims), w1) →
        env.findOne (emailClaim (getField claims "email")) w1 = (Except.ok (some user), w2) →
        env.sign (emailClaim user.email) env.ACCESS_JWT_SECRET "6h" w2
          = (Except.ok accessToken, w3) →
        ((refreshToken env req).exec w).2.log.filter Event.isJson
          = [Event.json (JSVal.obj [("message", JSVal.str "access token generated"),
                                    ("accesstoken", JSVal.str accessToken)]),
             Event.json (JSVal.obj [("decodedToken", JSVal.obj claims)])]
        ∧ delivered ((refreshToken env req).exec w).2.log
          = [(200, JSVal.obj [("message", JSVal.str "access token generated"),
                              ("accesstoken", JSVal.str accessToken)])]
        ∧ ((refreshToken env req).exec w).1 = Except.error headersSentError)
    ∧ (((refreshToken env req).exec w).1 = Except.ok () →
        (((refreshToken env req).exec w).2.log.filter Event.isJson).length = 1
        ∧ (delivered ((refreshToken env req).exec w).2.log).length = 1)
    ∧ (((registerUser env req).exec w).1 = Except.ok ()
        ∧ (((registerUser env req).exec w).2.log.filter Event.isJson).length = 1
        ∧ (delivered ((registerUser env req).exec w).2.log).length = 1)
    ∧ (((loginUser env req).exec w).1 = Except.ok ()
        ∧ (((loginUser env req).exec w).2.log.filter Event.isJson).length = 1
        ∧ (delivered ((loginUser env req).exec w).2.log).length = 1)
    ∧ (((logoutUser env req).exec w).1 = Except.ok ()
        ∧ (((logoutUser env req).exec w).2.log.filter Event.isJson).length = 1
        ∧ (delivered ((logoutUser env req).exec w).2.log).length = 1)
    ∧ (((uploadImage env req).exec w).1 = Except.ok ()
        ∧ (((uploadImage env req).exec w).2.log.filter Event.isJson).length = 1
        ∧ (delivered ((uploadImage env req).exec w).2.log).length = 1) := by
  refine ⟨fun claims user w1 w2 w3 accessToken ht hver hfind hsign => ?_,
    fun hdone => single_write (refreshToken_completed_single_write env req w hdone),
    ⟨(registerUser_total env req w).1, single_write (registerUser_total env req w).2.1⟩,
    ⟨(loginUser_total env req w).1, single_write (loginUser_total env req w).2.1⟩, ?_,
    ⟨(uploadImage_total env req w).1, single_write (uploadImage_total env req w).2.1⟩⟩
  · simp [Act.exec, refreshToken, generateAccessToken, ht, call, hver, member, Act.pure,
      hfind, hsign, bind, Act.bind, resStatus, resJson, resCookie, resClearCookie, resCall, headersSent, Event.isJson, emit, delivered, responses, responsesFrom]
  · simp [Act.exec, logoutUser, bind, Act.bind, resStatus, resJson, resCookie, resClearCookie, resCall, headersSent, Event.isJson, emit, delivered, responses, responsesFrom]

/-- Witness for C10: the cookie token of alice with alice in the store gives
two `res.json` calls of which the first goes out; the same token against an empty
store completes with one. -/
theorem response_write_counts_witness :
    (((refreshToken memEnv (cookieRefresh "7d.r.a@x.com")).exec [aliceDoc]).2.log.filter
        Event.isJson
        = [Event.json (JSVal.obj [("message", JSVal.str "access token generated"),
                                  ("accesstoken", JSVal.str "6h.a.a@x.com")]),
           Event.json (JSVal.obj [("decodedToken",
             JSVal.obj [("email", JSVal.str "a@x.com")])])]
      ∧ delivered ((refreshToken memEnv (cookieRefresh "7d.r.a@x.com")).exec [aliceDoc]).2.log
        = [(200, JSVal.obj [("message", JSVal.str "access token generated"),
                            ("accesstoken", JSVal.str "6h.a.a@x.com")])]
      ∧ ((refreshToken memEnv (cookieRefresh "7d.r.a@x.com")).exec [aliceDoc]).1
        = Except.error headersSentError)
    ∧ (((refreshToken memEnv (cookieRefresh "7d.r.a@x.com")).exec []).2.log.filter
        Event.isJson).length = 1 :=
  ⟨(response_write_counts memEnv (cookieRefresh "7d.r.a@x.com") [aliceDoc]).1
      [("email", JSVal.str "a@x.com")] aliceDoc [aliceDoc] [aliceDoc] [aliceDoc]
      "6h.a.a@x.com" (by decide) (by rfl) (by rfl) (by rfl),
   ((response_write_counts memEnv (cookieRefresh "7d.r.a@x.com") []).2.1 (by rfl)).1⟩

end AuthControllers
